import Mathlib

/-!
# Verification of the `gotp` ESC/POS thermal-printer driver

A shallow embedding of `escpos/escpos.go` (package `escpos`) and the parts of
`models/print.go` needed by the claims.  Go strings are Lean `String`s; where
the code works on the raw bytes of a string we convert with `strBytes`
(Go's `[]byte(s)`, i.e. UTF-8).  Go's `uint8` fields are `Nat` with explicit
`% 256` at the one place an overflow could occur (`column++`); the `int64`
timing fields only ever hold non-negative values well below 2^63 (they are
built from the constants 573, 2100, 24000, 30000, 48, 24, 6 by sums and
products), so they are embedded as `Nat`.

The serial port (an external collaborator) is embedded as an oracle
`fails : Nat → Bool` telling whether the n-th `Serial.Write` call returns an
error, together with an event trace recording every write attempt, every
`timeoutSet` and every `timeoutWait` in program order.  The character
encoder `golang.org/x/text/encoding` (another external collaborator, stored
in the `enc` field by `New`/`SetCodePage`) is embedded as an abstract
function `String → Option (List Nat)`: `none` models an encoding error.
-/

namespace Gotp

/-- Go's `fmt.Sprintf("%c", n)`: the UTF-8 encoding of code point `n`;
surrogates and out-of-range values print U+FFFD (bytes EF BF BD). -/
def goC (n : Nat) : List Nat :=
  if n < 0x80 then [n]
  else if n < 0x800 then [0xC0 + n / 64, 0x80 + n % 64]
  else if 0xD800 ≤ n ∧ n < 0xE000 then [0xEF, 0xBF, 0xBD]
  else if n < 0x10000 then [0xE0 + n / 4096, 0x80 + (n / 64) % 64, 0x80 + n % 64]
  else if n < 0x110000 then
    [0xF0 + n / 262144, 0x80 + (n / 4096) % 64, 0x80 + (n / 64) % 64, 0x80 + n % 64]
  else [0xEF, 0xBF, 0xBD]

/-- Go's `[]byte(s)`: the UTF-8 bytes of a string. -/
def strBytes (s : String) : List Nat :=
  (s.data.map (fun c => goC c.toNat)).flatten

/-- Fuelled core of `strings.Replace(s, pat, rep, -1)`: replace every
non-overlapping occurrence of `pat`, scanning left to right.  The fuel is
the length of the remaining input, which bounds the recursion depth
(every step consumes at least one character). -/
def replaceAllGo (pat rep : List Char) : Nat → List Char → List Char
  | _, [] => []
  | 0, s => s
  | fuel + 1, c :: rest =>
    if pat.isPrefixOf (c :: rest) then
      rep ++ replaceAllGo pat rep fuel (rest.drop (pat.length - 1))
    else
      c :: replaceAllGo pat rep fuel rest

/-- Go's `strings.Replace(s, pat, rep, -1)` on char lists. -/
def replaceAll (pat rep s : List Char) : List Char :=
  replaceAllGo pat rep s.length s

/-- The `textReplaceMap` of `escpos.go`, in source order.  (Go iterates map
entries in a nondeterministic order; the claims below never depend on the
order, and for entity-free inputs all orders agree.) -/
def textReplacePairs : List (List Char × List Char) :=
  [("&#9;".data, "\t".data), ("&#x9;".data, "\t".data),
   ("&#10;".data, "\n".data), ("&#xA;".data, "\n".data),
   ("&apos;".data, "'".data), ("&quot;".data, "\"".data),
   ("&gt;".data, ">".data), ("&lt;".data, "<".data),
   ("&amp;".data, "&".data)]

/-- Embeds `(*Escpos).textReplace`: apply every replacement of `textReplaceMap`. -/
def textReplace (s : String) : String :=
  ⟨textReplacePairs.foldl (fun acc p => replaceAll p.1 p.2 acc) s.data⟩

/-- The `BAUDRATE` constant. -/
def BAUDRATE : Nat := 19200

/-- The `BYTETIME` constant: microseconds to issue one byte
(11 bits, rounded half-up). -/
def BYTETIME : Nat := ((11 * 1000000) + (BAUDRATE / 2)) / BAUDRATE

/-- The `ASCIILF` constant (`\n`). -/
def ASCIILF : Nat := 10

/-- One observable action at the transport/timing boundary:
a `Serial.Write` attempt carrying its bytes, a `timeoutSet`, or a
`timeoutWait`. -/
inductive Ev where
  | wr (data : List Nat)
  | delay (x : Nat)
  | wait
deriving DecidableEq

/-- The `Escpos` struct.  `errSet` embeds `err != nil`; `fails`,
`writeCount` and `events` embed the serial port collaborator (see the file
header).  `Verbose` only guards stdout logging and is carried unchanged. -/
structure Escpos where
  enc : String → Option (List Nat)
  fails : Nat → Bool
  width : Nat
  height : Nat
  underline : Nat
  emphasize : Nat
  upsidedown : Nat
  rotate : Nat
  prevByte : Nat
  column : Nat
  maxColumn : Nat
  charHeight : Nat
  lineSpacing : Nat
  barcodeHeight : Nat
  printDensity : Nat
  printBreakTime : Nat
  reverse : Nat
  smooth : Nat
  resumeTime : Nat
  dotPrintTime : Nat
  dotFeedTime : Nat
  maxChunkHeight : Nat
  verbose : Bool
  debug : Bool
  firmware : Nat
  errSet : Bool
  writeCount : Nat
  events : List Ev

/-- Embeds `timeoutSet`: record the new busy-until delay. -/
def timeoutSet (e : Escpos) (x : Nat) : Escpos :=
  { e with resumeTime := x, events := e.events ++ [Ev.delay x] }

/-- Embeds `timeoutWait`: sleep out the pending delay (state-free; traced). -/
def timeoutWait (e : Escpos) : Escpos :=
  { e with events := e.events ++ [Ev.wait] }

/-- A `Serial.Write` whose error is recorded on `e.err`
(the `if err != nil { e.err = err }` pattern of `WriteBytes`/`WriteText`);
skipped entirely in debug mode. -/
def serialPut (e : Escpos) (data : List Nat) : Escpos :=
  if e.debug then e
  else
    { e with events := e.events ++ [Ev.wr data],
             writeCount := e.writeCount + 1,
             errSet := e.errSet || e.fails e.writeCount }

/-- A `Serial.Write` whose error is returned to the caller and NOT recorded
(the pattern of `WriteRaw`); skipped entirely in debug mode. -/
def serialSend (e : Escpos) (data : List Nat) : Escpos × Bool :=
  if e.debug then (e, false)
  else
    ({ e with events := e.events ++ [Ev.wr data],
              writeCount := e.writeCount + 1 },
     e.fails e.writeCount)

/-- Embeds `(*Escpos).WriteBytes`. -/
def WriteBytes (e : Escpos) (data : List Nat) : Escpos :=
  timeoutSet (serialPut (timeoutWait e) data) (data.length * BYTETIME)

/-- Embeds `(*Escpos).WriteRaw`.  The returned `Bool` is the `err` result. -/
def WriteRaw (e : Escpos) (data : List Nat) : Escpos × Bool :=
  if data.length > 0 then
    let p := serialSend (timeoutWait e) data
    (timeoutSet p.1 (data.length * BYTETIME), p.2)
  else (e, false)

/-- Embeds `(*Escpos).Write` (a Go string is its bytes; command literals below are
written directly as byte lists). -/
def Write (e : Escpos) (data : List Nat) : Escpos × Bool :=
  WriteRaw e data

/-- Embeds `(*Escpos).IsOk`. -/
def IsOk (e : Escpos) : Bool :=
  if e.errSet then false else true

/-- Embeds `(*Escpos).SetAlign`.  The returned `Bool` is `true` iff the
`Invalid alignment` error was returned.  Note the source emits the command
(with the zero-initialised code) even in the error case. -/
def SetAlign (e : Escpos) (align : String) : Escpos × Bool :=
  let r : Nat × Bool :=
    if align = "left" then (0, false)
    else if align = "center" then (1, false)
    else if align = "right" then (2, false)
    else if align = "L" then (0, false)
    else if align = "C" then (1, false)
    else if align = "R" then (2, false)
    else (0, true)
  ((Write e ([27, 97] ++ goC r.1)).1, r.2)

/-- The errors `WriteText` can return. -/
inductive TextErr where
  | encodingError
  | emptyPayload
deriving DecidableEq

/-- The body of `WriteText`'s per-byte loop: skip 0x13, write the byte,
then on a line feed or on reaching `maxColumn` synthesize a wrap line feed
with its larger timing charge, else advance the column. -/
def writeTextChar (e : Escpos) (c : Nat) : Escpos :=
  if c = 19 then e
  else
    let e1 := serialPut (timeoutWait e) [c]
    if c = ASCIILF ∨ e1.column = e1.maxColumn then
      let e2 := timeoutSet e1 (BYTETIME + (e1.charHeight + e1.lineSpacing) * e1.dotFeedTime)
      let e3 := { timeoutWait e2 with column := 0 }
      let e4 := serialPut e3 [ASCIILF]
      let e5 := timeoutSet e4
        (BYTETIME + (e4.charHeight * e4.dotPrintTime + e4.lineSpacing * e4.dotFeedTime))
      { e5 with prevByte := ASCIILF }
    else
      let e2 := timeoutSet { e1 with column := (e1.column + 1) % 256 } BYTETIME
      { e2 with prevByte := c }

/-- The `for _, c := range []byte(rawData)` loop of `WriteText`. -/
def writeTextLoop (e : Escpos) (bs : List Nat) : Escpos :=
  bs.foldl writeTextChar e

/-- Embeds `(*Escpos).WriteText`. -/
def WriteText (e : Escpos) (data : String) : Escpos × Option TextErr :=
  match e.enc (textReplace data) with
  | none => (e, some TextErr.encodingError)
  | some rawData =>
    if rawData.length > 0 then (writeTextLoop e rawData, none)
    else (e, some TextErr.emptyPayload)

/-- Embeds `(*Escpos).SetBold`. -/
def SetBold (e : Escpos) (state : Bool) : Escpos :=
  if state then WriteBytes (WriteBytes e [27, 32, 1]) [27, 69, 1]
  else WriteBytes (WriteBytes e [27, 32, 0]) [27, 69, 0]

/-- Embeds `(*Escpos).SetSmall`. -/
def SetSmall (e : Escpos) (state : Bool) : Escpos :=
  if state then WriteBytes e [27, 33, 1] else WriteBytes e [27, 33, 0]

/-- Embeds `(*Escpos).SetFontSize`. -/
def SetFontSize (e : Escpos) (name : String) : Escpos :=
  if name = "large" ∨ name = "L" then
    WriteBytes { e with charHeight := 48, maxColumn := 16 } [29, 33, 17, 10]
  else if name = "medium" ∨ name = "M" then
    WriteBytes { e with charHeight := 48, maxColumn := 32 } [29, 33, 1, 10]
  else
    WriteBytes { e with charHeight := 24, maxColumn := 32 } [29, 33, 0, 10]

/-- Embeds `(*Escpos).setBarcodeHeight` (the `val > 255` clamp of the source is
vacuous for a `uint8`, and so is it here given `val ≤ 255`). -/
def setBarcodeHeight (e : Escpos) (val : Nat) : Escpos :=
  let v := if val < 1 then 1 else if val > 255 then 255 else val
  (Write { e with barcodeHeight := v } ([29, 104] ++ goC v)).1

/-- Embeds `(*Escpos).BarcodeChr`. -/
def BarcodeChr (e : Escpos) (val : Nat) : Escpos :=
  (Write e ([29, 104] ++ goC val)).1

/-- The symbology-name switch of `BarCode` (default `4`). -/
def barCodeType (code : String) : Nat :=
  if code = "UPC_A" then 0
  else if code = "UPC_E" then 1
  else if code = "UPCA" then 0
  else if code = "UPCE" then 1
  else if code = "EAN13" then 2
  else if code = "EAN8" then 3
  else if code = "CODE39" then 4
  else if code = "I25" then 5
  else if code = "CODEBAR" then 6
  else if code = "CODE93" then 7
  else if code = "CODE128" then 8
  else if code = "CODE11" then 9
  else if code = "MSI" then 10
  else 4

/-- Embeds `(*Escpos).Feed`. -/
def Feed (e : Escpos) (n : Nat) : Escpos :=
  if 264 ≤ e.firmware then
    let e1 := (Write e ([27, 100] ++ goC n)).1
    let e2 := timeoutSet e1 (e1.dotFeedTime * e1.charHeight)
    { e2 with prevByte := ASCIILF, column := 0 }
  else
    (List.range n).foldl (fun acc _ => WriteBytes acc [ASCIILF]) e

/-- Embeds `(*Escpos).Linefeed`. -/
def Linefeed (e : Escpos) : Escpos :=
  Feed e 1

/-- Embeds `(*Escpos).BarCode`. -/
def BarCode (e : Escpos) (code : String) (data : String) : Escpos :=
  let a := barCodeType code
  let e1 := WriteBytes e [29, 72, 2]
  let e2 := WriteBytes e1 [29, 119, 3]
  let e3 := (Write e2 ([29, 107] ++ goC a)).1
  let e4 := timeoutWait e3
  let e5 := timeoutSet e4 ((e4.barcodeHeight + 40) * e4.dotPrintTime)
  let e6 := (Write e5 (strBytes data)).1
  Feed { e6 with prevByte := ASCIILF } 2

/-- Embeds `(*Escpos).LinePrint`: a full-width dashed rule (`-` is byte 45). -/
def LinePrint (e : Escpos) : Escpos :=
  (List.range e.maxColumn).foldl (fun acc _ => (Write acc [45]).1) e

/-- Embeds `models.Printer`: one print node of the document template. -/
structure Printer where
  Line : Bool
  Align : String
  Style : String
  Size : String
  Text : String
  Image : Bool
  BarCode : Bool
  QrCode : Bool

/-- Embeds `models.BarCodeOption`. -/
structure BarCodeOption where
  Height : Nat
  Chr : Nat
  Code : String

/-- The loop body of `(*Escpos).WriteNode` for one row.  The image and QR
branches only log in debug mode and emit nothing. -/
def writeNodeRow (e : Escpos) (row : Printer) (set : BarCodeOption) : Escpos :=
  if row.Line ∧ row.Text.length = 0 then LinePrint e
  else if row.Image then e
  else if row.BarCode then
    let e1 := (SetAlign e row.Align).1
    let e2 := BarcodeChr e1 set.Chr
    let e3 := setBarcodeHeight e2 set.Height
    BarCode e3 set.Code row.Text
  else if row.QrCode then e
  else
    let e1 :=
      if row.Style = "bold" then SetBold e true
      else if row.Style = "small" then SetSmall e true
      else e
    let e2 := if row.Size ≠ "normal" then SetFontSize e1 row.Size else e1
    let e3 := (SetAlign e2 row.Align).1
    let e4 := (WriteText e3 row.Text).1
    let e5 := timeoutWait e4
    let e6 := Linefeed e5
    let e7 := timeoutWait e6
    let e8 := (SetAlign e7 "left").1
    let e9 :=
      if row.Style = "bold" then SetBold e8 false
      else if row.Style = "small" then SetSmall e8 false
      else e8
    let e10 := if row.Size ≠ "normal" then SetFontSize e9 "normal" else e9
    if row.Line then LinePrint e10 else e10

/-- Embeds `(*Escpos).WriteNode`. -/
def WriteNode (e : Escpos) (data : List Printer) (set : BarCodeOption) : Escpos :=
  data.foldl (fun acc row => writeNodeRow acc row set) e

/-- The bytes an event hands to the transport. -/
def evBytes : Ev → List Nat
  | Ev.wr d => d
  | Ev.delay _ => []
  | Ev.wait => []

/-- All bytes handed to the transport so far, in order. -/
def writtenBytes (e : Escpos) : List Nat :=
  (e.events.map evBytes).flatten

/-- A sample transcoder: the CP437 encoder restricted to its ASCII
subrange (on which it is the identity); any character outside that range
is treated as unmappable.  Used to build concrete test states. -/
def asciiEnc (s : String) : Option (List Nat) :=
  if s.data.all (fun c => c.toNat < 128) then some (s.data.map Char.toNat)
  else none

/-- A concrete printer state: field values as established by `New` plus
`Begin` with the default firmware 268 (so after `reset`), with the sample
ASCII transcoder, a transport that never fails, and an empty trace. -/
def baseState : Escpos :=
  { enc := asciiEnc, fails := fun _ => false,
    width := 1, height := 1,
    underline := 0, emphasize := 0, upsidedown := 0, rotate := 0,
    prevByte := 10, column := 0, maxColumn := 32,
    charHeight := 24, lineSpacing := 6, barcodeHeight := 50,
    printDensity := 10, printBreakTime := 2,
    reverse := 0, smooth := 0,
    resumeTime := 0, dotPrintTime := 30000, dotFeedTime := 2100,
    maxChunkHeight := 255,
    verbose := false, debug := false, firmware := 268,
    errSet := false, writeCount := 0, events := [] }

/-- The state `baseState` with a transport whose every write fails. -/
def failState : Escpos :=
  { baseState with fails := fun _ => true }


@[simp] theorem WriteBytes_enc (e : Escpos) (d : List Nat) :
    (WriteBytes e d).enc = e.enc := by
  dsimp only [WriteBytes, serialPut, timeoutWait, timeoutSet]
  repeat' split
  all_goals rfl

@[simp] theorem WriteBytes_fails (e : Escpos) (d : List Nat) :
    (WriteBytes e d).fails = e.fails := by
  dsimp only [WriteBytes, serialPut, timeoutWait, timeoutSet]
  repeat' split
  all_goals rfl

@[simp] theorem WriteBytes_width (e : Escpos) (d : List Nat) :
    (WriteBytes e d).width = e.width := by
  dsimp only [WriteBytes, serialPut, timeoutWait, timeoutSet]
  repeat' split
  all_goals rfl

@[simp] theorem WriteBytes_height (e : Escpos) (d : List Nat) :
    (WriteBytes e d).height = e.height := by
  dsimp only [WriteBytes, serialPut, timeoutWait, timeoutSet]
  repeat' split
  all_goals rfl

@[simp] theorem WriteBytes_underline (e : Escpos) (d : List Nat) :
    (WriteBytes e d).underline = e.underline := by
  dsimp only [WriteBytes, serialPut, timeoutWait, timeoutSet]
  repeat' split
  all_goals rfl

@[simp] theorem WriteBytes_emphasize (e : Escpos) (d : List Nat) :
    (WriteBytes e d).emphasize = e.emphasize := by
  dsimp only [WriteBytes, serialPut, timeoutWait, timeoutSet]
  repeat' split
  all_goals rfl

@[simp] theorem WriteBytes_upsidedown (e : Escpos) (d : List Nat) :
    (WriteBytes e d).upsidedown = e.upsidedown := by
  dsimp only [WriteBytes, serialPut, timeoutWait, timeoutSet]
  repeat' split
  all_goals rfl

@[simp] theorem WriteBytes_rotate (e : Escpos) (d : List Nat) :
    (WriteBytes e d).rotate = e.rotate := by
  dsimp only [WriteBytes, serialPut, timeoutWait, timeoutSet]
  repeat' split
  all_goals rfl

@[simp] theorem WriteBytes_prevByte (e : Escpos) (d : List Nat) :
    (WriteBytes e d).prevByte = e.prevByte := by
  dsimp only [WriteBytes, serialPut, timeoutWait, timeoutSet]
  repeat' split
  all_goals rfl

@[simp] theorem WriteBytes_column (e : Escpos) (d : List Nat) :
    (WriteBytes e d).column = e.column := by
  dsimp only [WriteBytes, serialPut, timeoutWait, timeoutSet]
  repeat' split
  all_goals rfl

@[simp] theorem WriteBytes_maxColumn (e : Escpos) (d : List Nat) :
    (WriteBytes e d).maxColumn = e.maxColumn := by
  dsimp only [WriteBytes, serialPut, timeoutWait, timeoutSet]
  repeat' split
  all_goals rfl

@[simp] theorem WriteBytes_charHeight (e : Escpos) (d : List Nat) :
    (WriteBytes e d).charHeight = e.charHeight := by
  dsimp only [WriteBytes, serialPut, timeoutWait, timeoutSet]
  repeat' split
  all_goals rfl

@[simp] theorem WriteBytes_lineSpacing (e : Escpos) (d : List Nat) :
    (WriteBytes e d).lineSpacing = e.lineSpacing := by
  dsimp only [WriteBytes, serialPut, timeoutWait, timeoutSet]
  repeat' split
  all_goals rfl

@[simp] theorem WriteBytes_barcodeHeight (e : Escpos) (d : List Nat) :
    (WriteBytes e d).barcodeHeight = e.barcodeHeight := by
  dsimp only [WriteBytes, serialPut, timeoutWait, timeoutSet]
  repeat' split
  all_goals rfl

@[simp] theorem WriteBytes_printDensity (e : Escpos) (d : List Nat) :
    (WriteBytes e d).printDensity = e.printDensity := by
  dsimp only [WriteBytes, serialPut, timeoutWait, timeoutSet]
  repeat' split
  all_goals rfl

@[simp] theorem WriteBytes_printBreakTime (e : Escpos) (d : List Nat) :
    (WriteBytes e d).printBreakTime = e.printBreakTime := by
  dsimp only [WriteBytes, serialPut, timeoutWait, timeoutSet]
  repeat' split
  all_goals rfl

@[simp] theorem WriteBytes_reverse (e : Escpos) (d : List Nat) :
    (WriteBytes e d).reverse = e.reverse := by
  dsimp only [WriteBytes, serialPut, timeoutWait, timeoutSet]
  repeat' split
  all_goals rfl

@[simp] theorem WriteBytes_smooth (e : Escpos) (d : List Nat) :
    (WriteBytes e d).smooth = e.smooth := by
  dsimp only [WriteBytes, serialPut, timeoutWait, timeoutSet]
  repeat' split
  all_goals rfl

@[simp] theorem WriteBytes_dotPrintTime (e : Escpos) (d : List Nat) :
    (WriteBytes e d).dotPrintTime = e.dotPrintTime := by
  dsimp only [WriteBytes, serialPut, timeoutWait, timeoutSet]
  repeat' split
  all_goals rfl

@[simp] theorem WriteBytes_dotFeedTime (e : Escpos) (d : List Nat) :
    (WriteBytes e d).dotFeedTime = e.dotFeedTime := by
  dsimp only [WriteBytes, serialPut, timeoutWait, timeoutSet]
  repeat' split
  all_goals rfl

@[simp] theorem WriteBytes_maxChunkHeight (e : Escpos) (d : List Nat) :
    (WriteBytes e d).maxChunkHeight = e.maxChunkHeight := by
  dsimp only [WriteBytes, serialPut, timeoutWait, timeoutSet]
  repeat' split
  all_goals rfl

@[simp] theorem WriteBytes_verbose (e : Escpos) (d : List Nat) :
    (WriteBytes e d).verbose = e.verbose := by
  dsimp only [WriteBytes, serialPut, timeoutWait, timeoutSet]
  repeat' split
  all_goals rfl

@[simp] theorem WriteBytes_debug (e : Escpos) (d : List Nat) :
    (WriteBytes e d).debug = e.debug := by
  dsimp only [WriteBytes, serialPut, timeoutWait, timeoutSet]
  repeat' split
  all_goals rfl

@[simp] theorem WriteBytes_firmware (e : Escpos) (d : List Nat) :
    (WriteBytes e d).firmware = e.firmware := by
  dsimp only [WriteBytes, serialPut, timeoutWait, timeoutSet]
  repeat' split
  all_goals rfl

@[simp] theorem WriteRaw_fst_enc (e : Escpos) (d : List Nat) :
    ((WriteRaw e d).1).enc = e.enc := by
  dsimp only [WriteRaw, serialSend, timeoutWait, timeoutSet]
  repeat' split
  all_goals rfl

@[simp] theorem WriteRaw_fst_fails (e : Escpos) (d : List Nat) :
    ((WriteRaw e d).1).fails = e.fails := by
  dsimp only [WriteRaw, serialSend, timeoutWait, timeoutSet]
  repeat' split
  all_goals rfl

@[simp] theorem WriteRaw_fst_width (e : Escpos) (d : List Nat) :
    ((WriteRaw e d).1).width = e.width := by
  dsimp only [WriteRaw, serialSend, timeoutWait, timeoutSet]
  repeat' split
  all_goals rfl

@[simp] theorem WriteRaw_fst_height (e : Escpos) (d : List Nat) :
    ((WriteRaw e d).1).height = e.height := by
  dsimp only [WriteRaw, serialSend, timeoutWait, timeoutSet]
  repeat' split
  all_goals rfl

@[simp] theorem WriteRaw_fst_underline (e : Escpos) (d : List Nat) :
    ((WriteRaw e d).1).underline = e.underline := by
  dsimp only [WriteRaw, serialSend, timeoutWait, timeoutSet]
  repeat' split
  all_goals rfl

@[simp] theorem WriteRaw_fst_emphasize (e : Escpos) (d : List Nat) :
    ((WriteRaw e d).1).emphasize = e.emphasize := by
  dsimp only [WriteRaw, serialSend, timeoutWait, timeoutSet]
  repeat' split
  all_goals rfl

@[simp] theorem WriteRaw_fst_upsidedown (e : Escpos) (d : List Nat) :
    ((WriteRaw e d).1).upsidedown = e.upsidedown := by
  dsimp only [WriteRaw, serialSend, timeoutWait, timeoutSet]
  repeat' split
  all_goals rfl

@[simp] theorem WriteRaw_fst_rotate (e : Escpos) (d : List Nat) :
    ((WriteRaw e d).1).rotate = e.rotate := by
  dsimp only [WriteRaw, serialSend, timeoutWait, timeoutSet]
  repeat' split
  all_goals rfl

@[simp] theorem WriteRaw_fst_prevByte (e : Escpos) (d : List Nat) :
    ((WriteRaw e d).1).prevByte = e.prevByte := by
  dsimp only [WriteRaw, serialSend, timeoutWait, timeoutSet]
  repeat' split
  all_goals rfl

@[simp] theorem WriteRaw_fst_column (e : Escpos) (d : List Nat) :
    ((WriteRaw e d).1).column = e.column := by
  dsimp only [WriteRaw, serialSend, timeoutWait, timeoutSet]
  repeat' split
  all_goals rfl

@[simp] theorem WriteRaw_fst_maxColumn (e : Escpos) (d : List Nat) :
    ((WriteRaw e d).1).maxColumn = e.maxColumn := by
  dsimp only [WriteRaw, serialSend, timeoutWait, timeoutSet]
  repeat' split
  all_goals rfl

@[simp] theorem WriteRaw_fst_charHeight (e : Escpos) (d : List Nat) :
    ((WriteRaw e d).1).charHeight = e.charHeight := by
  dsimp only [WriteRaw, serialSend, timeoutWait, timeoutSet]
  repeat' split
  all_goals rfl

@[simp] theorem WriteRaw_fst_lineSpacing (e : Escpos) (d : List Nat) :
    ((WriteRaw e d).1).lineSpacing = e.lineSpacing := by
  dsimp only [WriteRaw, serialSend, timeoutWait, timeoutSet]
  repeat' split
  all_goals rfl

@[simp] theorem WriteRaw_fst_barcodeHeight (e : Escpos) (d : List Nat) :
    ((WriteRaw e d).1).barcodeHeight = e.barcodeHeight := by
  dsimp only [WriteRaw, serialSend, timeoutWait, timeoutSet]
  repeat' split
  all_goals rfl

@[simp] theorem WriteRaw_fst_printDensity (e : Escpos) (d : List Nat) :
    ((WriteRaw e d).1).printDensity = e.printDensity := by
  dsimp only [WriteRaw, serialSend, timeoutWait, timeoutSet]
  repeat' split
  all_goals rfl

@[simp] theorem WriteRaw_fst_printBreakTime (e : Escpos) (d : List Nat) :
    ((WriteRaw e d).1).printBreakTime = e.printBreakTime := by
  dsimp only [WriteRaw, serialSend, timeoutWait, timeoutSet]
  repeat' split
  all_goals rfl

@[simp] theorem WriteRaw_fst_reverse (e : Escpos) (d : List Nat) :
    ((WriteRaw e d).1).reverse = e.reverse := by
  dsimp only [WriteRaw, serialSend, timeoutWait, timeoutSet]
  repeat' split
  all_goals rfl

@[simp] theorem WriteRaw_fst_smooth (e : Escpos) (d : List Nat) :
    ((WriteRaw e d).1).smooth = e.smooth := by
  dsimp only [WriteRaw, serialSend, timeoutWait, timeoutSet]
  repeat' split
  all_goals rfl

@[simp] theorem WriteRaw_fst_dotPrintTime (e : Escpos) (d : List Nat) :
    ((WriteRaw e d).1).dotPrintTime = e.dotPrintTime := by
  dsimp only [WriteRaw, serialSend, timeoutWait, timeoutSet]
  repeat' split
  all_goals rfl

@[simp] theorem WriteRaw_fst_dotFeedTime (e : Escpos) (d : List Nat) :
    ((WriteRaw e d).1).dotFeedTime = e.dotFeedTime := by
  dsimp only [WriteRaw, serialSend, timeoutWait, timeoutSet]
  repeat' split
  all_goals rfl

@[simp] theorem WriteRaw_fst_maxChunkHeight (e : Escpos) (d : List Nat) :
    ((WriteRaw e d).1).maxChunkHeight = e.maxChunkHeight := by
  dsimp only [WriteRaw, serialSend, timeoutWait, timeoutSet]
  repeat' split
  all_goals rfl

@[simp] theorem WriteRaw_fst_verbose (e : Escpos) (d : List Nat) :
    ((WriteRaw e d).1).verbose = e.verbose := by
  dsimp only [WriteRaw, serialSend, timeoutWait, timeoutSet]
  repeat' split
  all_goals rfl

@[simp] theorem WriteRaw_fst_debug (e : Escpos) (d : List Nat) :
    ((WriteRaw e d).1).debug = e.debug := by
  dsimp only [WriteRaw, serialSend, timeoutWait, timeoutSet]
  repeat' split
  all_goals rfl

@[simp] theorem WriteRaw_fst_firmware (e : Escpos) (d : List Nat) :
    ((WriteRaw e d).1).firmware = e.firmware := by
  dsimp only [WriteRaw, serialSend, timeoutWait, timeoutSet]
  repeat' split
  all_goals rfl

@[simp] theorem WriteRaw_fst_errSet (e : Escpos) (d : List Nat) :
    ((WriteRaw e d).1).errSet = e.errSet := by
  dsimp only [WriteRaw, serialSend, timeoutWait, timeoutSet]
  repeat' split
  all_goals rfl

@[simp] theorem writeTextChar_enc (e : Escpos) (c : Nat) :
    (writeTextChar e c).enc = e.enc := by
  dsimp only [writeTextChar, serialPut, timeoutWait, timeoutSet]
  repeat' split
  all_goals rfl

@[simp] theorem writeTextChar_fails (e : Escpos) (c : Nat) :
    (writeTextChar e c).fails = e.fails := by
  dsimp only [writeTextChar, serialPut, timeoutWait, timeoutSet]
  repeat' split
  all_goals rfl

@[simp] theorem writeTextChar_width (e : Escpos) (c : Nat) :
    (writeTextChar e c).width = e.width := by
  dsimp only [writeTextChar, serialPut, timeoutWait, timeoutSet]
  repeat' split
  all_goals rfl

@[simp] theorem writeTextChar_height (e : Escpos) (c : Nat) :
    (writeTextChar e c).height = e.height := by
  dsimp only [writeTextChar, serialPut, timeoutWait, timeoutSet]
  repeat' split
  all_goals rfl

@[simp] theorem writeTextChar_underline (e : Escpos) (c : Nat) :
    (writeTextChar e c).underline = e.underline := by
  dsimp only [writeTextChar, serialPut, timeoutWait, timeoutSet]
  repeat' split
  all_goals rfl

@[simp] theorem writeTextChar_emphasize (e : Escpos) (c : Nat) :
    (writeTextChar e c).emphasize = e.emphasize := by
  dsimp only [writeTextChar, serialPut, timeoutWait, timeoutSet]
  repeat' split
  all_goals rfl

@[simp] theorem writeTextChar_upsidedown (e : Escpos) (c : Nat) :
    (writeTextChar e c).upsidedown = e.upsidedown := by
  dsimp only [writeTextChar, serialPut, timeoutWait, timeoutSet]
  repeat' split
  all_goals rfl

@[simp] theorem writeTextChar_rotate (e : Escpos) (c : Nat) :
    (writeTextChar e c).rotate = e.rotate := by
  dsimp only [writeTextChar, serialPut, timeoutWait, timeoutSet]
  repeat' split
  all_goals rfl

@[simp] theorem writeTextChar_maxColumn (e : Escpos) (c : Nat) :
    (writeTextChar e c).maxColumn = e.maxColumn := by
  dsimp only [writeTextChar, serialPut, timeoutWait, timeoutSet]
  repeat' split
  all_goals rfl

@[simp] theorem writeTextChar_charHeight (e : Escpos) (c : Nat) :
    (writeTextChar e c).charHeight = e.charHeight := by
  dsimp only [writeTextChar, serialPut, timeoutWait, timeoutSet]
  repeat' split
  all_goals rfl

@[simp] theorem writeTextChar_lineSpacing (e : Escpos) (c : Nat) :
    (writeTextChar e c).lineSpacing = e.lineSpacing := by
  dsimp only [writeTextChar, serialPut, timeoutWait, timeoutSet]
  repeat' split
  all_goals rfl

@[simp] theorem writeTextChar_barcodeHeight (e : Escpos) (c : Nat) :
    (writeTextChar e c).barcodeHeight = e.barcodeHeight := by
  dsimp only [writeTextChar, serialPut, timeoutWait, timeoutSet]
  repeat' split
  all_goals rfl

@[simp] theorem writeTextChar_printDensity (e : Escpos) (c : Nat) :
    (writeTextChar e c).printDensity = e.printDensity := by
  dsimp only [writeTextChar, serialPut, timeoutWait, timeoutSet]
  repeat' split
  all_goals rfl

@[simp] theorem writeTextChar_printBreakTime (e : Escpos) (c : Nat) :
    (writeTextChar e c).printBreakTime = e.printBreakTime := by
  dsimp only [writeTextChar, serialPut, timeoutWait, timeoutSet]
  repeat' split
  all_goals rfl

@[simp] theorem writeTextChar_reverse (e : Escpos) (c : Nat) :
    (writeTextChar e c).reverse = e.reverse := by
  dsimp only [writeTextChar, serialPut, timeoutWait, timeoutSet]
  repeat' split
  all_goals rfl

@[simp] theorem writeTextChar_smooth (e : Escpos) (c : Nat) :
    (writeTextChar e c).smooth = e.smooth := by
  dsimp only [writeTextChar, serialPut, timeoutWait, timeoutSet]
  repeat' split
  all_goals rfl

@[simp] theorem writeTextChar_dotPrintTime (e : Escpos) (c : Nat) :
    (writeTextChar e c).dotPrintTime = e.dotPrintTime := by
  dsimp only [writeTextChar, serialPut, timeoutWait, timeoutSet]
  repeat' split
  all_goals rfl

@[simp] theorem writeTextChar_dotFeedTime (e : Escpos) (c : Nat) :
    (writeTextChar e c).dotFeedTime = e.dotFeedTime := by
  dsimp only [writeTextChar, serialPut, timeoutWait, timeoutSet]
  repeat' split
  all_goals rfl

@[simp] theorem writeTextChar_maxChunkHeight (e : Escpos) (c : Nat) :
    (writeTextChar e c).maxChunkHeight = e.maxChunkHeight := by
  dsimp only [writeTextChar, serialPut, timeoutWait, timeoutSet]
  repeat' split
  all_goals rfl

@[simp] theorem writeTextChar_verbose (e : Escpos) (c : Nat) :
    (writeTextChar e c).verbose = e.verbose := by
  dsimp only [writeTextChar, serialPut, timeoutWait, timeoutSet]
  repeat' split
  all_goals rfl

@[simp] theorem writeTextChar_debug (e : Escpos) (c : Nat) :
    (writeTextChar e c).debug = e.debug := by
  dsimp only [writeTextChar, serialPut, timeoutWait, timeoutSet]
  repeat' split
  all_goals rfl

@[simp] theorem writeTextChar_firmware (e : Escpos) (c : Nat) :
    (writeTextChar e c).firmware = e.firmware := by
  dsimp only [writeTextChar, serialPut, timeoutWait, timeoutSet]
  repeat' split
  all_goals rfl


/-- Value of `writtenBytes` over an extended trace. -/
theorem writtenBytes_append (e : Escpos) (l : List Ev) :
    writtenBytes { e with events := e.events ++ l } =
      writtenBytes e ++ (l.map evBytes).flatten := by
  simp [writtenBytes]

/-- Result of `WriteBytes` outside debug mode, as one record update. -/
theorem WriteBytes_eq (e : Escpos) (d : List Nat) (hd : e.debug = false) :
    WriteBytes e d =
      { e with resumeTime := d.length * BYTETIME,
               errSet := e.errSet || e.fails e.writeCount,
               writeCount := e.writeCount + 1,
               events := e.events ++
                 [Ev.wait, Ev.wr d, Ev.delay (d.length * BYTETIME)] } := by
  simp [WriteBytes, serialPut, timeoutWait, timeoutSet, hd]

/-- Result of `WriteRaw` on nonempty data outside debug mode. -/
theorem WriteRaw_eq (e : Escpos) (d : List Nat) (hd : e.debug = false)
    (hne : d ≠ []) :
    WriteRaw e d =
      ({ e with resumeTime := d.length * BYTETIME,
                writeCount := e.writeCount + 1,
                events := e.events ++
                  [Ev.wait, Ev.wr d, Ev.delay (d.length * BYTETIME)] },
       e.fails e.writeCount) := by
  simp [WriteRaw, serialSend, timeoutWait, timeoutSet, hd, List.length_pos, hne]

/-- The per-byte loop body on an ordinary glyph (no 0x13, no line feed,
no wrap) outside debug mode. -/
theorem writeTextChar_adv (e : Escpos) (c : Nat) (hd : e.debug = false)
    (h19 : c ≠ 19) (h10 : c ≠ 10) (hw : e.column ≠ e.maxColumn) :
    writeTextChar e c =
      { e with column := (e.column + 1) % 256, prevByte := c,
               resumeTime := BYTETIME,
               errSet := e.errSet || e.fails e.writeCount,
               writeCount := e.writeCount + 1,
               events := e.events ++ [Ev.wait, Ev.wr [c], Ev.delay BYTETIME] } := by
  simp [writeTextChar, serialPut, timeoutWait, timeoutSet, ASCIILF, hd, h19, h10, hw]

/-- The per-byte loop body at the wrap column or on a line-feed byte
(no 0x13) outside debug mode: the byte is written and followed by a
synthesized line feed with its feed-based timing charge. -/
theorem writeTextChar_wrap (e : Escpos) (c : Nat) (hd : e.debug = false)
    (h19 : c ≠ 19) (hw : c = 10 ∨ e.column = e.maxColumn) :
    writeTextChar e c =
      { e with column := 0, prevByte := 10,
               resumeTime := BYTETIME +
                 (e.charHeight * e.dotPrintTime + e.lineSpacing * e.dotFeedTime),
               errSet := (e.errSet || e.fails e.writeCount) ||
                 e.fails (e.writeCount + 1),
               writeCount := e.writeCount + 2,
               events := e.events ++
                 [Ev.wait, Ev.wr [c],
                  Ev.delay (BYTETIME + (e.charHeight + e.lineSpacing) * e.dotFeedTime),
                  Ev.wait, Ev.wr [10],
                  Ev.delay (BYTETIME +
                    (e.charHeight * e.dotPrintTime + e.lineSpacing * e.dotFeedTime))] } := by
  simp [writeTextChar, serialPut, timeoutWait, timeoutSet, ASCIILF, hd, h19]
  rcases hw with h | h <;> simp [h]


@[simp] theorem writeTextLoop_enc (bs : List Nat) : ∀ e : Escpos,
    (writeTextLoop e bs).enc = e.enc := by
  induction bs with
  | nil => intro e; rfl
  | cons c rest ih =>
    intro e
    rw [show writeTextLoop e (c :: rest) = writeTextLoop (writeTextChar e c) rest from rfl,
        ih (writeTextChar e c), writeTextChar_enc]

@[simp] theorem writeTextLoop_fails (bs : List Nat) : ∀ e : Escpos,
    (writeTextLoop e bs).fails = e.fails := by
  induction bs with
  | nil => intro e; rfl
  | cons c rest ih =>
    intro e
    rw [show writeTextLoop e (c :: rest) = writeTextLoop (writeTextChar e c) rest from rfl,
        ih (writeTextChar e c), writeTextChar_fails]

@[simp] theorem writeTextLoop_width (bs : List Nat) : ∀ e : Escpos,
    (writeTextLoop e bs).width = e.width := by
  induction bs with
  | nil => intro e; rfl
  | cons c rest ih =>
    intro e
    rw [show writeTextLoop e (c :: rest) = writeTextLoop (writeTextChar e c) rest from rfl,
        ih (writeTextChar e c), writeTextChar_width]

@[simp] theorem writeTextLoop_height (bs : List Nat) : ∀ e : Escpos,
    (writeTextLoop e bs).height = e.height := by
  induction bs with
  | nil => intro e; rfl
  | cons c rest ih =>
    intro e
    rw [show writeTextLoop e (c :: rest) = writeTextLoop (writeTextChar e c) rest from rfl,
        ih (writeTextChar e c), writeTextChar_height]

@[simp] theorem writeTextLoop_underline (bs : List Nat) : ∀ e : Escpos,
    (writeTextLoop e bs).underline = e.underline := by
  induction bs with
  | nil => intro e; rfl
  | cons c rest ih =>
    intro e
    rw [show writeTextLoop e (c :: rest) = writeTextLoop (writeTextChar e c) rest from rfl,
        ih (writeTextChar e c), writeTextChar_underline]

@[simp] theorem writeTextLoop_emphasize (bs : List Nat) : ∀ e : Escpos,
    (writeTextLoop e bs).emphasize = e.emphasize := by
  induction bs with
  | nil => intro e; rfl
  | cons c rest ih =>
    intro e
    rw [show writeTextLoop e (c :: rest) = writeTextLoop (writeTextChar e c) rest from rfl,
        ih (writeTextChar e c), writeTextChar_emphasize]

@[simp] theorem writeTextLoop_upsidedown (bs : List Nat) : ∀ e : Escpos,
    (writeTextLoop e bs).upsidedown = e.upsidedown := by
  induction bs with
  | nil => intro e; rfl
  | cons c rest ih =>
    intro e
    rw [show writeTextLoop e (c :: rest) = writeTextLoop (writeTextChar e c) rest from rfl,
        ih (writeTextChar e c), writeTextChar_upsidedown]

@[simp] theorem writeTextLoop_rotate (bs : List Nat) : ∀ e : Escpos,
    (writeTextLoop e bs).rotate = e.rotate := by
  induction bs with
  | nil => intro e; rfl
  | cons c rest ih =>
    intro e
    rw [show writeTextLoop e (c :: rest) = writeTextLoop (writeTextChar e c) rest from rfl,
        ih (writeTextChar e c), writeTextChar_rotate]

@[simp] theorem writeTextLoop_maxColumn (bs : List Nat) : ∀ e : Escpos,
    (writeTextLoop e bs).maxColumn = e.maxColumn := by
  induction bs with
  | nil => intro e; rfl
  | cons c rest ih =>
    intro e
    rw [show writeTextLoop e (c :: rest) = writeTextLoop (writeTextChar e c) rest from rfl,
        ih (writeTextChar e c), writeTextChar_maxColumn]

@[simp] theorem writeTextLoop_charHeight (bs : List Nat) : ∀ e : Escpos,
    (writeTextLoop e bs).charHeight = e.charHeight := by
  induction bs with
  | nil => intro e; rfl
  | cons c rest ih =>
    intro e
    rw [show writeTextLoop e (c :: rest) = writeTextLoop (writeTextChar e c) rest from rfl,
        ih (writeTextChar e c), writeTextChar_charHeight]

@[simp] theorem writeTextLoop_lineSpacing (bs : List Nat) : ∀ e : Escpos,
    (writeTextLoop e bs).lineSpacing = e.lineSpacing := by
  induction bs with
  | nil => intro e; rfl
  | cons c rest ih =>
    intro e
    rw [show writeTextLoop e (c :: rest) = writeTextLoop (writeTextChar e c) rest from rfl,
        ih (writeTextChar e c), writeTextChar_lineSpacing]

@[simp] theorem writeTextLoop_barcodeHeight (bs : List Nat) : ∀ e : Escpos,
    (writeTextLoop e bs).barcodeHeight = e.barcodeHeight := by
  induction bs with
  | nil => intro e; rfl
  | cons c rest ih =>
    intro e
    rw [show writeTextLoop e (c :: rest) = writeTextLoop (writeTextChar e c) rest from rfl,
        ih (writeTextChar e c), writeTextChar_barcodeHeight]

@[simp] theorem writeTextLoop_printDensity (bs : List Nat) : ∀ e : Escpos,
    (writeTextLoop e bs).printDensity = e.printDensity := by
  induction bs with
  | nil => intro e; rfl
  | cons c rest ih =>
    intro e
    rw [show writeTextLoop e (c :: rest) = writeTextLoop (writeTextChar e c) rest from rfl,
        ih (writeTextChar e c), writeTextChar_printDensity]

@[simp] theorem writeTextLoop_printBreakTime (bs : List Nat) : ∀ e : Escpos,
    (writeTextLoop e bs).printBreakTime = e.printBreakTime := by
  induction bs with
  | nil => intro e; rfl
  | cons c rest ih =>
    intro e
    rw [show writeTextLoop e (c :: rest) = writeTextLoop (writeTextChar e c) rest from rfl,
        ih (writeTextChar e c), writeTextChar_printBreakTime]

@[simp] theorem writeTextLoop_reverse (bs : List Nat) : ∀ e : Escpos,
    (writeTextLoop e bs).reverse = e.reverse := by
  induction bs with
  | nil => intro e; rfl
  | cons c rest ih =>
    intro e
    rw [show writeTextLoop e (c :: rest) = writeTextLoop (writeTextChar e c) rest from rfl,
        ih (writeTextChar e c), writeTextChar_reverse]

@[simp] theorem writeTextLoop_smooth (bs : List Nat) : ∀ e : Escpos,
    (writeTextLoop e bs).smooth = e.smooth := by
  induction bs with
  | nil => intro e; rfl
  | cons c rest ih =>
    intro e
    rw [show writeTextLoop e (c :: rest) = writeTextLoop (writeTextChar e c) rest from rfl,
        ih (writeTextChar e c), writeTextChar_smooth]

@[simp] theorem writeTextLoop_dotPrintTime (bs : List Nat) : ∀ e : Escpos,
    (writeTextLoop e bs).dotPrintTime = e.dotPrintTime := by
  induction bs with
  | nil => intro e; rfl
  | cons c rest ih =>
    intro e
    rw [show writeTextLoop e (c :: rest) = writeTextLoop (writeTextChar e c) rest from rfl,
        ih (writeTextChar e c), writeTextChar_dotPrintTime]

@[simp] theorem writeTextLoop_dotFeedTime (bs : List Nat) : ∀ e : Escpos,
    (writeTextLoop e bs).dotFeedTime = e.dotFeedTime := by
  induction bs with
  | nil => intro e; rfl
  | cons c rest ih =>
    intro e
    rw [show writeTextLoop e (c :: rest) = writeTextLoop (writeTextChar e c) rest from rfl,
        ih (writeTextChar e c), writeTextChar_dotFeedTime]

@[simp] theorem writeTextLoop_maxChunkHeight (bs : List Nat) : ∀ e : Escpos,
    (writeTextLoop e bs).maxChunkHeight = e.maxChunkHeight := by
  induction bs with
  | nil => intro e; rfl
  | cons c rest ih =>
    intro e
    rw [show writeTextLoop e (c :: rest) = writeTextLoop (writeTextChar e c) rest from rfl,
        ih (writeTextChar e c), writeTextChar_maxChunkHeight]

@[simp] theorem writeTextLoop_verbose (bs : List Nat) : ∀ e : Escpos,
    (writeTextLoop e bs).verbose = e.verbose := by
  induction bs with
  | nil => intro e; rfl
  | cons c rest ih =>
    intro e
    rw [show writeTextLoop e (c :: rest) = writeTextLoop (writeTextChar e c) rest from rfl,
        ih (writeTextChar e c), writeTextChar_verbose]

@[simp] theorem writeTextLoop_debug (bs : List Nat) : ∀ e : Escpos,
    (writeTextLoop e bs).debug = e.debug := by
  induction bs with
  | nil => intro e; rfl
  | cons c rest ih =>
    intro e
    rw [show writeTextLoop e (c :: rest) = writeTextLoop (writeTextChar e c) rest from rfl,
        ih (writeTextChar e c), writeTextChar_debug]

@[simp] theorem writeTextLoop_firmware (bs : List Nat) : ∀ e : Escpos,
    (writeTextLoop e bs).firmware = e.firmware := by
  induction bs with
  | nil => intro e; rfl
  | cons c rest ih =>
    intro e
    rw [show writeTextLoop e (c :: rest) = writeTextLoop (writeTextChar e c) rest from rfl,
        ih (writeTextChar e c), writeTextChar_firmware]


/-- Core invariant of `WriteText`'s per-byte loop outside debug mode, for
payloads free of line-feed (10) and 0x13 bytes: every payload byte reaches
the transport exactly once (the synthesized wrap line feeds are the only
other bytes), and the column counter advances by one per byte, cycling
through `0, …, maxColumn` — a cycle of length `maxColumn + 1`, because the
wrap check runs after the write of the byte that follows the full line. -/
theorem writeTextLoop_spec (bs : List Nat) : ∀ e : Escpos,
    e.debug = false → (∀ b ∈ bs, b ≠ 10 ∧ b ≠ 19) →
    e.column ≤ e.maxColumn → e.maxColumn ≤ 255 →
    (∃ extra : List Nat,
      writtenBytes (writeTextLoop e bs) = writtenBytes e ++ extra ∧
      extra.filter (fun b => b != 10) = bs) ∧
    (writeTextLoop e bs).column = (e.column + bs.length) % (e.maxColumn + 1) := by
  induction bs with
  | nil =>
    intro e _ _ hcol _
    refine ⟨⟨[], by simp [writeTextLoop], by simp⟩, ?_⟩
    show e.column = (e.column + 0) % (e.maxColumn + 1)
    rw [Nat.add_zero, Nat.mod_eq_of_lt (Nat.lt_succ_of_le hcol)]
  | cons c rest ih =>
    intro e hd hb hcol hmax
    have hc := hb c (by simp)
    have hrest : ∀ b ∈ rest, b ≠ 10 ∧ b ≠ 19 :=
      fun b m => hb b (List.mem_cons_of_mem _ m)
    rw [show writeTextLoop e (c :: rest) = writeTextLoop (writeTextChar e c) rest from rfl]
    by_cases hw : e.column = e.maxColumn
    · obtain ⟨⟨extra, hwb, hfil⟩, hcol'⟩ :=
        ih (writeTextChar e c) (by simp [hd]) hrest
          (by rw [writeTextChar_wrap e c hd hc.2 (Or.inr hw)]; simp)
          (by simpa using hmax)
      refine ⟨⟨c :: 10 :: extra, ?_, ?_⟩, ?_⟩
      · rw [hwb, writeTextChar_wrap e c hd hc.2 (Or.inr hw)]
        simp [writtenBytes, evBytes]
      · simp [hfil, hc.1]
      · rw [hcol', writeTextChar_maxColumn,
          writeTextChar_wrap e c hd hc.2 (Or.inr hw)]
        simp only [Escpos.column]
        rw [hw]
        have h1 : e.maxColumn + (rest.length + 1) = (e.maxColumn + 1) + rest.length := by
          omega
        rw [show (c :: rest).length = rest.length + 1 from rfl, h1,
          Nat.add_mod_left, Nat.zero_add]
    · have hlt : e.column + 1 ≤ e.maxColumn := Nat.lt_of_le_of_ne hcol hw
      have hmod : (e.column + 1) % 256 = e.column + 1 :=
        Nat.mod_eq_of_lt (by omega)
      obtain ⟨⟨extra, hwb, hfil⟩, hcol'⟩ :=
        ih (writeTextChar e c) (by simp [hd]) hrest
          (by rw [writeTextChar_adv e c hd hc.2 hc.1 hw]; simpa [hmod] using hlt)
          (by simpa using hmax)
      refine ⟨⟨c :: extra, ?_, ?_⟩, ?_⟩
      · rw [hwb, writeTextChar_adv e c hd hc.2 hc.1 hw]
        simp [writtenBytes, evBytes]
      · simp [hfil, hc.1]
      · rw [hcol', writeTextChar_maxColumn,
          writeTextChar_adv e c hd hc.2 hc.1 hw]
        simp only [Escpos.column]
        rw [hmod]
        have h1 : e.column + 1 + rest.length = e.column + (rest.length + 1) := by omega
        rw [show (c :: rest).length = rest.length + 1 from rfl, h1]


/-- C8: with baud rate 19200 the per-byte transmission constant `BYTETIME`
is 573 microseconds, computed as 11 bits × 1,000,000 / 19200 with half-up
rounding (adding half the divisor before the integer division). -/
theorem c8_bytetime : BYTETIME = 573 ∧
    BYTETIME = (11 * 1000000 + BAUDRATE / 2) / BAUDRATE :=
  ⟨by decide, rfl⟩

/-- C6: `WriteText` fails with the encoding error when transcoding fails
and with the empty-payload error when the transcoded text is empty; in both
cases it returns before any byte is sent and the whole printer state —
including the emitted trace — is unchanged. -/
theorem c6_writeText_errors (e : Escpos) (t : String) :
    (e.enc (textReplace t) = none →
      WriteText e t = (e, some TextErr.encodingError)) ∧
    (e.enc (textReplace t) = some [] →
      WriteText e t = (e, some TextErr.emptyPayload)) := by
  constructor
  · intro h
    simp [WriteText, h]
  · intro h
    simp [WriteText, h]

/-- Witness for C6 at concrete inputs: with the ASCII-subrange transcoder,
`"é"` is unmappable and `""` transcodes to the empty payload. -/
theorem c6_writeText_errors_witness :
    WriteText baseState "é" = (baseState, some TextErr.encodingError) ∧
    WriteText baseState "" = (baseState, some TextErr.emptyPayload) :=
  ⟨(c6_writeText_errors baseState "é").1 (by decide),
   (c6_writeText_errors baseState "").2 (by decide)⟩

/-- C9: `WriteText` leaves every printer-state field other than `column`,
`prevByte`, `resumeTime` and the recorded transport error unchanged
(the trace bookkeeping `writeCount`/`events` of the transport model aside):
`maxColumn`, `charHeight`, `lineSpacing`, `barcodeHeight`, the font
`width`/`height`, all style toggles, the timing constants, the firmware
level and the selected encoder are preserved, for every input string. -/
theorem c9_writeText_frame (e : Escpos) (t : String) :
    (WriteText e t).1.maxColumn = e.maxColumn ∧
    (WriteText e t).1.charHeight = e.charHeight ∧
    (WriteText e t).1.lineSpacing = e.lineSpacing ∧
    (WriteText e t).1.barcodeHeight = e.barcodeHeight ∧
    (WriteText e t).1.width = e.width ∧
    (WriteText e t).1.height = e.height ∧
    (WriteText e t).1.underline = e.underline ∧
    (WriteText e t).1.emphasize = e.emphasize ∧
    (WriteText e t).1.upsidedown = e.upsidedown ∧
    (WriteText e t).1.rotate = e.rotate ∧
    (WriteText e t).1.reverse = e.reverse ∧
    (WriteText e t).1.smooth = e.smooth ∧
    (WriteText e t).1.printDensity = e.printDensity ∧
    (WriteText e t).1.printBreakTime = e.printBreakTime ∧
    (WriteText e t).1.dotPrintTime = e.dotPrintTime ∧
    (WriteText e t).1.dotFeedTime = e.dotFeedTime ∧
    (WriteText e t).1.maxChunkHeight = e.maxChunkHeight ∧
    (WriteText e t).1.firmware = e.firmware ∧
    (WriteText e t).1.debug = e.debug ∧
    (WriteText e t).1.verbose = e.verbose ∧
    (WriteText e t).1.enc = e.enc := by
  cases h : e.enc (textReplace t) with
  | none => simp [WriteText, h]
  | some raw =>
    simp only [WriteText, h]
    split <;> simp

/-- C1 (amended): for text whose transcoding (after entity replacement)
contains no line-feed byte 10 and no stripped byte 0x13, `WriteText` hands
exactly the transcoded payload bytes to the transport (the synthesized wrap
line feeds aside), and the column afterwards is
`(initialColumn + transcodedLength) mod (maxColumn + 1)` — the cycle is one
longer than `maxColumn` because the wrap fires only after the byte
following a full line has been printed. -/
theorem c1_writeText_payload_column (e : Escpos) (t : String) (bs : List Nat)
    (hd : e.debug = false)
    (henc : e.enc (textReplace t) = some bs)
    (hb : ∀ b ∈ bs, b ≠ 10 ∧ b ≠ 19)
    (hcol : e.column ≤ e.maxColumn) (hmax : e.maxColumn ≤ 255) :
    ((writtenBytes (WriteText e t).1).drop (writtenBytes e).length).filter
      (fun b => b != 10) = bs ∧
    (WriteText e t).1.column = (e.column + bs.length) % (e.maxColumn + 1) := by
  simp only [WriteText, henc]
  by_cases hbs : bs = []
  · subst hbs
    simp only [List.length_nil, gt_iff_lt, Nat.lt_irrefl, if_false]
    refine ⟨by simp, ?_⟩
    show e.column = (e.column + 0) % (e.maxColumn + 1)
    rw [Nat.add_zero, Nat.mod_eq_of_lt (Nat.lt_succ_of_le hcol)]
  · rw [if_pos (List.length_pos.mpr hbs)]
    obtain ⟨⟨extra, hwb, hfil⟩, hcol'⟩ := writeTextLoop_spec bs e hd hb hcol hmax
    refine ⟨?_, hcol'⟩
    rw [hwb, List.drop_left, hfil]

/-- Witness for C1 at a concrete input: `"Hi!"` transcodes to three ASCII
bytes, all of which reach the transport, and the column advances from 0
to 3. -/
theorem c1_writeText_payload_column_witness :
    ((writtenBytes (WriteText baseState "Hi!").1).drop
        (writtenBytes baseState).length).filter (fun b => b != 10) =
      [72, 105, 33] ∧
    (WriteText baseState "Hi!").1.column =
      (baseState.column + [72, 105, 33].length) % (baseState.maxColumn + 1) :=
  c1_writeText_payload_column baseState "Hi!" [72, 105, 33] rfl (by decide)
    (by decide) (by decide) (by decide)

/-- C1 counterexample to the claim as stated: at the large font size
(`maxColumn = 16`, column 0) a 16-character ASCII text leaves the column
counter at 16, whereas `(0 + 16) mod 16 = 0` — the claimed
`mod maxColumn` law fails at the wrap boundary. -/
theorem c1_writeText_counterexample :
    (SetFontSize baseState "large").column = 0 ∧
    (SetFontSize baseState "large").maxColumn = 16 ∧
    (SetFontSize baseState "large").enc (textReplace "aaaaaaaaaaaaaaaa") =
      some (List.replicate 16 97) ∧
    (WriteText (SetFontSize baseState "large") "aaaaaaaaaaaaaaaa").1.column ≠
      ((SetFontSize baseState "large").column + (List.replicate 16 97).length) %
        (SetFontSize baseState "large").maxColumn := by
  refine ⟨by decide, by decide, by decide, by decide⟩


/-- C2 counterexample to the claim as stated: on the unrecognized token
`"bogus"`, `SetAlign` does return the invalid-argument error, but the
operation is not aborted — the align command `ESC a 0` (a silent default of
left) is still emitted, because the source writes the command after the
switch unconditionally. -/
theorem c2_setAlign_counterexample :
    (SetAlign baseState "bogus").2 = true ∧
    (SetAlign baseState "bogus").1.events =
      [Ev.wait, Ev.wr [27, 97, 0], Ev.delay (3 * 573)] ∧
    (SetAlign baseState "bogus").1.events ≠ baseState.events := by
  refine ⟨by decide, by decide, by decide⟩

/-- C2 (amended): `SetAlign` accepts exactly `left`, `center`, `right` and
the aliases `L`, `C`, `R` (no error returned); every other string yields
the invalid-argument error, but the command is still emitted with the
default code 0 (left) rather than being suppressed.  (There is no stored
alignment field on the encoder state to change in either case.) -/
theorem c2_setAlign (e : Escpos) (s : String) (hd : e.debug = false) :
    ((s = "left" ∨ s = "center" ∨ s = "right" ∨ s = "L" ∨ s = "C" ∨ s = "R") →
      (SetAlign e s).2 = false) ∧
    ((s ≠ "left" ∧ s ≠ "center" ∧ s ≠ "right" ∧ s ≠ "L" ∧ s ≠ "C" ∧ s ≠ "R") →
      (SetAlign e s).2 = true ∧
      (SetAlign e s).1.events =
        e.events ++ [Ev.wait, Ev.wr [27, 97, 0], Ev.delay (3 * BYTETIME)]) := by
  constructor
  · rintro (h | h | h | h | h | h) <;> simp [SetAlign, h]
  · rintro ⟨h1, h2, h3, h4, h5, h6⟩
    constructor
    · simp [SetAlign, h1, h2, h3, h4, h5, h6]
    · simp only [SetAlign, h1, h2, h3, h4, h5, h6, if_false]
      rw [show Write e ([27, 97] ++ goC 0) = Write e [27, 97, 0] from rfl,
        Write, WriteRaw_eq e [27, 97, 0] hd (by decide)]
      simp

/-- Witness for C2 at concrete inputs. -/
theorem c2_setAlign_witness :
    (SetAlign baseState "center").2 = false ∧
    (SetAlign baseState "oops").2 = true ∧
    (SetAlign baseState "oops").1.events =
      baseState.events ++ [Ev.wait, Ev.wr [27, 97, 0], Ev.delay (3 * BYTETIME)] :=
  ⟨(c2_setAlign baseState "center" rfl).1 (Or.inr (Or.inl rfl)),
   ((c2_setAlign baseState "oops" rfl).2 (by decide)).1,
   ((c2_setAlign baseState "oops" rfl).2 (by decide)).2⟩

/-- C3 counterexample to the claim as stated: with a transport whose every
write fails, `WriteRaw` returns the failure to its caller but records
nothing on the encoder — `IsOk` still answers `true` afterwards, so this
write failure is not queryable via the status query. -/
theorem c3_transport_counterexample :
    (WriteRaw failState [1, 2, 3]).2 = true ∧
    IsOk (WriteRaw failState [1, 2, 3]).1 = true := by
  refine ⟨by decide, by decide⟩

/-- An error recorded on the encoder is never cleared by the per-byte loop
body: `e.err` is only ever assigned a fresh non-nil error. -/
theorem writeTextChar_errSet_mono (e : Escpos) (c : Nat)
    (h : e.errSet = true) : (writeTextChar e c).errSet = true := by
  dsimp only [writeTextChar, serialPut, timeoutWait, timeoutSet]
  repeat' split
  all_goals simp_all

/-- An error recorded on the encoder survives the whole per-byte loop. -/
theorem writeTextLoop_errSet_mono (bs : List Nat) : ∀ e : Escpos,
    e.errSet = true → (writeTextLoop e bs).errSet = true := by
  induction bs with
  | nil => intro e h; exact h
  | cons c rest ih =>
    intro e h
    rw [show writeTextLoop e (c :: rest) = writeTextLoop (writeTextChar e c) rest
      from rfl]
    exact ih (writeTextChar e c) (writeTextChar_errSet_mono e c h)

/-- A failing transport write in `WriteText`'s per-byte loop is recorded
on the encoder (the `if err != nil { e.err = err }` at escpos.go:409). -/
theorem writeTextChar_errSet_fail (e : Escpos) (c : Nat)
    (hd : e.debug = false) (h19 : c ≠ 19)
    (hfail : e.fails e.writeCount = true) :
    (writeTextChar e c).errSet = true := by
  by_cases hw : c = 10 ∨ e.column = e.maxColumn
  · rw [writeTextChar_wrap e c hd h19 hw]
    simp [hfail]
  · push_neg at hw
    rw [writeTextChar_adv e c hd h19 hw.1 hw.2]
    simp [hfail]

/-- C3 (amended): a transport failure during `WriteBytes` or during one of
`WriteText`'s per-byte writes is recorded on the encoder (`IsOk` answers
`false` afterwards) and not thrown; `WriteRaw` instead returns the failure
to its caller and leaves the recorded error unchanged.  No failure halts
the sequence: the write is still attempted and handed to the transport
(the `Ev.wr` event is emitted) regardless of any previously recorded
error. -/
theorem c3_transport (e : Escpos) (data : List Nat) (hd : e.debug = false)
    (hfail : e.fails e.writeCount = true) :
    IsOk (WriteBytes e data) = false ∧
    (data ≠ [] → (WriteRaw e data).2 = true ∧
      (WriteRaw e data).1.errSet = e.errSet) ∧
    (WriteBytes e data).events =
      e.events ++ [Ev.wait, Ev.wr data, Ev.delay (data.length * BYTETIME)] ∧
    (∀ (t : String) (b : Nat) (bs : List Nat),
      e.enc (textReplace t) = some (b :: bs) → b ≠ 19 →
      IsOk (WriteText e t).1 = false) := by
  refine ⟨?_, fun hne => ?_, ?_, ?_⟩
  · rw [WriteBytes_eq e data hd]
    simp [IsOk, hfail]
  · rw [WriteRaw_eq e data hd hne]
    simp [hfail]
  · rw [WriteBytes_eq e data hd]
  · intro t b bs henc hb19
    simp only [WriteText, henc]
    rw [if_pos (by simp)]
    have h1 : (writeTextLoop e (b :: bs)).errSet = true := by
      rw [show writeTextLoop e (b :: bs) =
          writeTextLoop (writeTextChar e b) bs from rfl]
      exact writeTextLoop_errSet_mono bs (writeTextChar e b)
        (writeTextChar_errSet_fail e b hd hb19 hfail)
    simp [IsOk, h1]

/-- Witness for C3 at a concrete state with an always-failing transport,
exercising the `WriteBytes`, `WriteRaw` and `WriteText` parts. -/
theorem c3_transport_witness :
    IsOk (WriteBytes failState [7]) = false ∧
    ((WriteRaw failState [7]).2 = true ∧
      (WriteRaw failState [7]).1.errSet = failState.errSet) ∧
    (WriteBytes failState [7]).events =
      failState.events ++ [Ev.wait, Ev.wr [7], Ev.delay (1 * BYTETIME)] ∧
    IsOk (WriteText failState "A").1 = false :=
  ⟨(c3_transport failState [7] rfl rfl).1,
   (c3_transport failState [7] rfl rfl).2.1 (by decide),
   (c3_transport failState [7] rfl rfl).2.2.1,
   (c3_transport failState [7] rfl rfl).2.2.2 "A" 65 [] (by decide) (by decide)⟩


/-- A concrete state on legacy firmware (below 264), mid-line. -/
def legacyState : Escpos :=
  { baseState with firmware := 200, column := 5, prevByte := 65 }

/-- Helper for `Feed`'s legacy loop: `n` iterations of `WriteBytes` with a
single line-feed byte, outside debug mode, touch neither `column` nor
`prevByte` and emit one write per iteration. -/
theorem feedLegacyLoop_spec (l : List Nat) : ∀ e : Escpos, e.debug = false →
    (l.foldl (fun acc _ => WriteBytes acc [ASCIILF]) e).column = e.column ∧
    (l.foldl (fun acc _ => WriteBytes acc [ASCIILF]) e).prevByte = e.prevByte ∧
    (l.foldl (fun acc _ => WriteBytes acc [ASCIILF]) e).events =
      e.events ++
        (l.map (fun _ => [Ev.wait, Ev.wr [10], Ev.delay BYTETIME])).flatten := by
  induction l with
  | nil =>
    intro e _
    exact ⟨rfl, rfl, by simp⟩
  | cons x rest ih =>
    intro e hd
    rw [List.foldl_cons]
    obtain ⟨h1, h2, h3⟩ := ih (WriteBytes e [ASCIILF]) (by simp [hd])
    refine ⟨?_, ?_, ?_⟩
    · rw [h1, WriteBytes_eq e [ASCIILF] hd]
    · rw [h2, WriteBytes_eq e [ASCIILF] hd]
    · rw [h3, WriteBytes_eq e [ASCIILF] hd]
      simp [ASCIILF]

/-- C5 counterexample to the claim as stated: on firmware below the 264
minimum, `Feed(1)` emits the line-feed byte but does NOT reset `column`
to 0 nor `prevByte` to the line-feed code — only the extended branch
performs those resets. -/
theorem c5_feed_counterexample :
    legacyState.firmware < 264 ∧
    (Feed legacyState 1).events = [Ev.wait, Ev.wr [10], Ev.delay BYTETIME] ∧
    (Feed legacyState 1).column ≠ 0 ∧
    (Feed legacyState 1).prevByte ≠ 10 := by
  refine ⟨by decide, by decide, by decide, by decide⟩

/-- C5 (amended): when the firmware level meets the 264 minimum, `Feed(n)`
emits the single extended feed command `ESC d` with the `%c`-encoded count
and resets `column` to 0 and `prevByte` to the line-feed code; otherwise it
emits `n` individual line-feed bytes and leaves `column` and `prevByte`
unchanged. -/
theorem c5_feed (e : Escpos) (n : Nat) (hd : e.debug = false) :
    (264 ≤ e.firmware →
      (Feed e n).column = 0 ∧ (Feed e n).prevByte = 10 ∧
      (Feed e n).events = e.events ++
        [Ev.wait, Ev.wr ([27, 100] ++ goC n),
         Ev.delay ((2 + (goC n).length) * BYTETIME),
         Ev.delay (e.dotFeedTime * e.charHeight)]) ∧
    (e.firmware < 264 →
      (Feed e n).column = e.column ∧ (Feed e n).prevByte = e.prevByte ∧
      (Feed e n).events = e.events ++
        (List.replicate n [Ev.wait, Ev.wr [10], Ev.delay BYTETIME]).flatten) := by
  constructor
  · intro hfw
    rw [show Feed e n =
        ({ timeoutSet ((Write e ([27, 100] ++ goC n)).1)
            (((Write e ([27, 100] ++ goC n)).1).dotFeedTime *
              ((Write e ([27, 100] ++ goC n)).1).charHeight) with
          prevByte := ASCIILF, column := 0 } : Escpos)
      from by rw [Feed, if_pos hfw]]
    rw [Write, WriteRaw_eq e ([27, 100] ++ goC n) hd (by simp)]
    refine ⟨rfl, rfl, ?_⟩
    simp [timeoutSet]
    exact Or.inl (by omega)
  · intro hfw
    rw [Feed, if_neg (by omega)]
    obtain ⟨h1, h2, h3⟩ := feedLegacyLoop_spec (List.range n) e hd
    refine ⟨h1, h2, ?_⟩
    rw [h3]
    congr 1
    rw [List.map_const', List.length_range]

/-- Witness for C5 at concrete inputs on both firmware levels. -/
theorem c5_feed_witness :
    ((Feed baseState 2).column = 0 ∧ (Feed baseState 2).prevByte = 10 ∧
      (Feed baseState 2).events = baseState.events ++
        [Ev.wait, Ev.wr ([27, 100] ++ goC 2),
         Ev.delay ((2 + (goC 2).length) * BYTETIME),
         Ev.delay (baseState.dotFeedTime * baseState.charHeight)]) ∧
    ((Feed legacyState 2).column = legacyState.column ∧
      (Feed legacyState 2).prevByte = legacyState.prevByte ∧
      (Feed legacyState 2).events = legacyState.events ++
        (List.replicate 2 [Ev.wait, Ev.wr [10], Ev.delay BYTETIME]).flatten) :=
  ⟨(c5_feed baseState 2 rfl).1 (by decide),
   (c5_feed legacyState 2 rfl).2 (by decide)⟩

/-- C10 counterexample to the claim as stated: `BarcodeChr(200)` does not
emit `0x1D 0x68 200` — Go's `%c` formats the value 200 as the two UTF-8
bytes `0xC3 0x88`, so the bytes handed to the transport are
`[29, 104, 195, 136]`. -/
theorem c10_barcodeChr_counterexample :
    writtenBytes (BarcodeChr baseState 200) = [29, 104, 195, 136] ∧
    writtenBytes (BarcodeChr baseState 200) ≠ [29, 104, 200] := by
  refine ⟨by decide, by decide⟩

/-- C10 (amended): `BarcodeChr(v)` emits `0x1D 0x68` followed by the
`%c`-encoding of `v` (the single byte `v` exactly when `v < 128`) — for
`1 ≤ v ≤ 255` these are bit-for-bit the bytes `setBarcodeHeight(v)` writes
for the barcode-height command, not a distinct label-position command —
and it leaves every printer-state field except `resumeTime` unchanged
(the transport-trace bookkeeping aside): `barcodeHeight`, `column`,
`prevByte`, `maxColumn`, `charHeight`, `lineSpacing`, the recorded error,
the font metrics, all style toggles, `firmware`, `printDensity`,
`printBreakTime`, the timing constants, the mode flags and the selected
encoder are all untouched. -/
theorem c10_barcodeChr (e : Escpos) (v : Nat) (hd : e.debug = false) :
    (BarcodeChr e v).events = e.events ++
      [Ev.wait, Ev.wr ([29, 104] ++ goC v),
       Ev.delay ((2 + (goC v).length) * BYTETIME)] ∧
    (v < 128 → [29, 104] ++ goC v = [29, 104, v]) ∧
    (1 ≤ v → v ≤ 255 →
      (setBarcodeHeight e v).events = e.events ++
        [Ev.wait, Ev.wr ([29, 104] ++ goC v),
         Ev.delay ((2 + (goC v).length) * BYTETIME)]) ∧
    (BarcodeChr e v).barcodeHeight = e.barcodeHeight ∧
    (BarcodeChr e v).column = e.column ∧
    (BarcodeChr e v).prevByte = e.prevByte ∧
    (BarcodeChr e v).maxColumn = e.maxColumn ∧
    (BarcodeChr e v).charHeight = e.charHeight ∧
    (BarcodeChr e v).lineSpacing = e.lineSpacing ∧
    (BarcodeChr e v).errSet = e.errSet ∧
    (BarcodeChr e v).width = e.width ∧
    (BarcodeChr e v).height = e.height ∧
    (BarcodeChr e v).underline = e.underline ∧
    (BarcodeChr e v).emphasize = e.emphasize ∧
    (BarcodeChr e v).upsidedown = e.upsidedown ∧
    (BarcodeChr e v).rotate = e.rotate ∧
    (BarcodeChr e v).reverse = e.reverse ∧
    (BarcodeChr e v).smooth = e.smooth ∧
    (BarcodeChr e v).firmware = e.firmware ∧
    (BarcodeChr e v).printDensity = e.printDensity ∧
    (BarcodeChr e v).printBreakTime = e.printBreakTime ∧
    (BarcodeChr e v).dotPrintTime = e.dotPrintTime ∧
    (BarcodeChr e v).dotFeedTime = e.dotFeedTime ∧
    (BarcodeChr e v).maxChunkHeight = e.maxChunkHeight ∧
    (BarcodeChr e v).debug = e.debug ∧
    (BarcodeChr e v).verbose = e.verbose ∧
    (BarcodeChr e v).enc = e.enc := by
  refine ⟨?_, ?_, ?_, ?_, ?_, ?_, ?_, ?_, ?_, ?_, ?_, ?_, ?_, ?_, ?_, ?_, ?_, ?_,
    ?_, ?_, ?_, ?_, ?_, ?_, ?_, ?_, ?_⟩
  · rw [BarcodeChr, Write, WriteRaw_eq e ([29, 104] ++ goC v) hd (by simp)]
    simp
    exact Or.inl (by omega)
  · intro h
    simp [goC, h]
  · intro h1 h255
    rw [setBarcodeHeight]
    simp only [if_neg (by omega : ¬v < 1), if_neg (by omega : ¬v > 255)]
    rw [Write, WriteRaw_eq ({ e with barcodeHeight := v } : Escpos)
      ([29, 104] ++ goC v) (by simp [hd]) (by simp)]
    simp
    exact Or.inl (by omega)
  all_goals simp [BarcodeChr, Write]

/-- Witness for C10 at a concrete input. -/
theorem c10_barcodeChr_witness :
    (BarcodeChr baseState 3).events = baseState.events ++
      [Ev.wait, Ev.wr ([29, 104] ++ goC 3),
       Ev.delay ((2 + (goC 3).length) * BYTETIME)] ∧
    [29, 104] ++ goC 3 = [29, 104, 3] ∧
    (setBarcodeHeight baseState 3).events = baseState.events ++
      [Ev.wait, Ev.wr ([29, 104] ++ goC 3),
       Ev.delay ((2 + (goC 3).length) * BYTETIME)] ∧
    (BarcodeChr baseState 3).barcodeHeight = baseState.barcodeHeight :=
  ⟨(c10_barcodeChr baseState 3 rfl).1,
   (c10_barcodeChr baseState 3 rfl).2.1 (by decide),
   (c10_barcodeChr baseState 3 rfl).2.2.1 (by decide) (by decide),
   (c10_barcodeChr baseState 3 rfl).2.2.2.1⟩


/-- Every symbology code produced by the name table fits in one `%c` byte. -/
theorem goC_barCodeType (code : String) :
    goC (barCodeType code) = [barCodeType code] := by
  have h : barCodeType code < 128 := by
    delta barCodeType
    by_cases h0 : code = "UPC_A"
    · rw [if_pos h0]; omega
    rw [if_neg h0]
    by_cases h1 : code = "UPC_E"
    · rw [if_pos h1]; omega
    rw [if_neg h1]
    by_cases h2 : code = "UPCA"
    · rw [if_pos h2]; omega
    rw [if_neg h2]
    by_cases h3 : code = "UPCE"
    · rw [if_pos h3]; omega
    rw [if_neg h3]
    by_cases h4 : code = "EAN13"
    · rw [if_pos h4]; omega
    rw [if_neg h4]
    by_cases h5 : code = "EAN8"
    · rw [if_pos h5]; omega
    rw [if_neg h5]
    by_cases h6 : code = "CODE39"
    · rw [if_pos h6]; omega
    rw [if_neg h6]
    by_cases h7 : code = "I25"
    · rw [if_pos h7]; omega
    rw [if_neg h7]
    by_cases h8 : code = "CODEBAR"
    · rw [if_pos h8]; omega
    rw [if_neg h8]
    by_cases h9 : code = "CODE93"
    · rw [if_pos h9]; omega
    rw [if_neg h9]
    by_cases h10 : code = "CODE128"
    · rw [if_pos h10]; omega
    rw [if_neg h10]
    by_cases h11 : code = "CODE11"
    · rw [if_pos h11]; omega
    rw [if_neg h11]
    by_cases h12 : code = "MSI"
    · rw [if_pos h12]; omega
    rw [if_neg h12]
    omega
  simp only [goC]
  rw [if_pos h]

/-- The extended-firmware branch of `Feed`, as one record update. -/
theorem Feed_ext_eq (e : Escpos) (n : Nat) (hd : e.debug = false)
    (hfw : 264 ≤ e.firmware) :
    Feed e n =
      { e with column := 0, prevByte := 10,
               resumeTime := e.dotFeedTime * e.charHeight,
               writeCount := e.writeCount + 1,
               events := e.events ++
                 [Ev.wait, Ev.wr ([27, 100] ++ goC n),
                  Ev.delay ((2 + (goC n).length) * BYTETIME),
                  Ev.delay (e.dotFeedTime * e.charHeight)] } := by
  rw [Feed, if_pos hfw, Write, WriteRaw_eq e ([27, 100] ++ goC n) hd (by simp)]
  simp [timeoutSet, ASCIILF]
  exact Or.inl (by omega)

/-- C4 counterexample to the claim as stated: in `BarCode`'s trace at a
concrete input the unique height-dependent timing advance
`(barcodeHeight + 40) × dotPrintTime = (50 + 40) × 30000` occurs BEFORE the
unique payload write, not after it as the claimed emission order has it. -/
theorem c4_barCode_counterexample :
    (BarCode baseState "CODE128" "AB").events.count (Ev.delay 2700000) = 1 ∧
    (BarCode baseState "CODE128" "AB").events.count (Ev.wr [65, 66]) = 1 ∧
    (BarCode baseState "CODE128" "AB").events.indexOf (Ev.delay 2700000) <
      (BarCode baseState "CODE128" "AB").events.indexOf (Ev.wr [65, 66]) := by
  refine ⟨by decide, by decide, by decide⟩

/-- C4 (amended): `BarCode` never fails for any symbology name and payload:
a recognized name is mapped through the fixed table and every other name
falls back to the default code 4; the emission sequence is the
label-position command, the width command, the type command, then the
height-dependent timing advance `(barcodeHeight + 40) × dotPrintTime`
(set BEFORE the payload, so it is waited out ahead of the payload bytes),
then the payload, then a feed of two lines. -/
theorem c4_barCode (e : Escpos) (code data : String) (hd : e.debug = false)
    (hfw : 264 ≤ e.firmware) (hne : strBytes data ≠ []) :
    ((code ≠ "UPC_A" ∧ code ≠ "UPC_E" ∧ code ≠ "UPCA" ∧ code ≠ "UPCE" ∧
      code ≠ "EAN13" ∧ code ≠ "EAN8" ∧ code ≠ "CODE39" ∧ code ≠ "I25" ∧
      code ≠ "CODEBAR" ∧ code ≠ "CODE93" ∧ code ≠ "CODE128" ∧
      code ≠ "CODE11" ∧ code ≠ "MSI") → barCodeType code = 4) ∧
    (BarCode e code data).events = e.events ++
      [Ev.wait, Ev.wr [29, 72, 2], Ev.delay (3 * BYTETIME),
       Ev.wait, Ev.wr [29, 119, 3], Ev.delay (3 * BYTETIME),
       Ev.wait, Ev.wr [29, 107, barCodeType code], Ev.delay (3 * BYTETIME),
       Ev.wait,
       Ev.delay ((e.barcodeHeight + 40) * e.dotPrintTime),
       Ev.wait, Ev.wr (strBytes data),
       Ev.delay ((strBytes data).length * BYTETIME),
       Ev.wait, Ev.wr [27, 100, 2], Ev.delay (3 * BYTETIME),
       Ev.delay (e.dotFeedTime * e.charHeight)] ∧
    (BarCode e code data).column = 0 ∧
    (BarCode e code data).prevByte = 10 := by
  refine ⟨?_, ?_⟩
  · rintro ⟨h1, h2, h3, h4, h5, h6, h7, h8, h9, h10, h11, h12, h13⟩
    delta barCodeType
    rw [if_neg h1]
    rw [if_neg h2]
    rw [if_neg h3]
    rw [if_neg h4]
    rw [if_neg h5]
    rw [if_neg h6]
    rw [if_neg h7]
    rw [if_neg h8]
    rw [if_neg h9]
    rw [if_neg h10]
    rw [if_neg h11]
    rw [if_neg h12]
    rw [if_neg h13]
  · simp only [BarCode, Write]
    set e1 := WriteBytes e [29, 72, 2] with he1
    set e2 := WriteBytes e1 [29, 119, 3] with he2
    set e3 := (WriteRaw e2 ([29, 107] ++ goC (barCodeType code))).1 with he3
    set e4 := timeoutWait e3 with he4
    set e5 := timeoutSet e4 ((e4.barcodeHeight + 40) * e4.dotPrintTime) with he5
    set e6 := (WriteRaw e5 (strBytes data)).1 with he6
    have d1 : e1.debug = false := by simp [he1, hd]
    have d2 : e2.debug = false := by simp [he2, d1]
    have d3 : e3.debug = false := by simp [he3, d2]
    have d4 : e4.debug = false := by simp [he4, timeoutWait, d3]
    have d5 : e5.debug = false := by simp [he5, timeoutSet, d4]
    have d6 : e6.debug = false := by simp [he6, d5]
    have v1 : e1.events = e.events ++
        [Ev.wait, Ev.wr [29, 72, 2], Ev.delay (3 * BYTETIME)] := by
      rw [he1, WriteBytes_eq e [29, 72, 2] hd]
      simp
    have v2 : e2.events = e1.events ++
        [Ev.wait, Ev.wr [29, 119, 3], Ev.delay (3 * BYTETIME)] := by
      rw [he2, WriteBytes_eq e1 [29, 119, 3] d1]
      simp
    have v3 : e3.events = e2.events ++
        [Ev.wait, Ev.wr [29, 107, barCodeType code], Ev.delay (3 * BYTETIME)] := by
      rw [he3, goC_barCodeType,
        WriteRaw_eq e2 ([29, 107] ++ [barCodeType code]) d2 (by simp)]
      simp
    have v4 : e4.events = e3.events ++ [Ev.wait] := by
      rw [he4]
      try simp [timeoutWait]
    have hbh : e4.barcodeHeight = e.barcodeHeight := by
      simp [he4, timeoutWait, he3, he2, he1]
    have hdp : e4.dotPrintTime = e.dotPrintTime := by
      simp [he4, timeoutWait, he3, he2, he1]
    have v5 : e5.events = e4.events ++
        [Ev.delay ((e.barcodeHeight + 40) * e.dotPrintTime)] := by
      rw [he5, hbh, hdp]
      try simp [timeoutSet]
    have v6 : e6.events = e5.events ++
        [Ev.wait, Ev.wr (strBytes data),
         Ev.delay ((strBytes data).length * BYTETIME)] := by
      rw [he6, WriteRaw_eq e5 (strBytes data) d5 hne]
      try simp
    have hfw6 : 264 ≤ ({ e6 with prevByte := ASCIILF } : Escpos).firmware := by
      simp only [Escpos.firmware]
      simp [he6, he5, timeoutSet, he4, timeoutWait, he3, he2, he1, hfw]
    have hdf : ({ e6 with prevByte := ASCIILF } : Escpos).dotFeedTime = e.dotFeedTime := by
      simp [he6, he5, timeoutSet, he4, timeoutWait, he3, he2, he1]
    have hch : ({ e6 with prevByte := ASCIILF } : Escpos).charHeight = e.charHeight := by
      simp [he6, he5, timeoutSet, he4, timeoutWait, he3, he2, he1]
    rw [Feed_ext_eq ({ e6 with prevByte := ASCIILF } : Escpos) 2 (by simpa using d6) hfw6]
    refine ⟨?_, rfl, rfl⟩
    simp only [Escpos.events]
    rw [hdf, hch, v6, v5, v4, v3, v2, v1]
    simp [goC, List.append_assoc]

/-- Witness for C4 at a concrete unrecognized symbology name. -/
theorem c4_barCode_witness :
    barCodeType "XX" = 4 ∧
    (BarCode baseState "XX" "A").column = 0 ∧
    (BarCode baseState "XX" "A").prevByte = 10 :=
  ⟨(c4_barCode baseState "XX" "A" rfl (by decide) (by decide)).1 (by decide),
   (c4_barCode baseState "XX" "A" rfl (by decide) (by decide)).2.2.1,
   (c4_barCode baseState "XX" "A" rfl (by decide) (by decide)).2.2.2⟩


/-- C7: for a document consisting of one text node with size `"large"`,
`WriteNode` factors through the set-then-reset pair of `SetFontSize`: the
encoder state passed to the node's `WriteText` (after the size and align
commands) reads `maxColumn = 16`, and immediately after the node is
processed `maxColumn` is back at the baseline 32 — for every starting
state, template text and barcode options. -/
theorem c7_writeNode_fontsize_restore (e : Escpos) (t : String)
    (set : BarCodeOption) :
    ((SetAlign (SetFontSize e "large") "center").1).maxColumn = 16 ∧
    (WriteNode e
        [{ Line := false, Align := "center", Style := "", Size := "large",
           Text := t, Image := false, BarCode := false, QrCode := false }]
        set).maxColumn = 32 ∧
    WriteNode e
        [{ Line := false, Align := "center", Style := "", Size := "large",
           Text := t, Image := false, BarCode := false, QrCode := false }]
        set =
      SetFontSize
        ((SetAlign
            (timeoutWait (Linefeed (timeoutWait
              ((WriteText ((SetAlign (SetFontSize e "large") "center").1)
                t).1))))
            "left").1)
        "normal" := by
  have hfac :
      WriteNode e
          [{ Line := false, Align := "center", Style := "", Size := "large",
             Text := t, Image := false, BarCode := false, QrCode := false }]
          set =
        SetFontSize
          ((SetAlign
              (timeoutWait (Linefeed (timeoutWait
                ((WriteText ((SetAlign (SetFontSize e "large") "center").1)
                  t).1))))
              "left").1)
          "normal" := rfl
  refine ⟨?_, ?_, hfac⟩
  · rw [show (SetAlign (SetFontSize e "large") "center").1 =
        (Write (SetFontSize e "large") ([27, 97] ++ goC 1)).1 from rfl]
    rw [Write, WriteRaw_fst_maxColumn]
    rw [show SetFontSize e "large" =
        WriteBytes { e with charHeight := 48, maxColumn := 16 } [29, 33, 17, 10]
      from rfl]
    rw [WriteBytes_maxColumn]
  · rw [hfac]
    rw [show SetFontSize
          ((SetAlign
              (timeoutWait (Linefeed (timeoutWait
                ((WriteText ((SetAlign (SetFontSize e "large") "center").1)
                  t).1))))
              "left").1)
          "normal" =
        WriteBytes
          { (SetAlign
              (timeoutWait (Linefeed (timeoutWait
                ((WriteText ((SetAlign (SetFontSize e "large") "center").1)
                  t).1))))
              "left").1 with charHeight := 24, maxColumn := 32 }
          [29, 33, 0, 10] from rfl]
    rw [WriteBytes_maxColumn]

end Gotp
